import Mathlib

/-!
Verification of the NETCONF session engine (`netconf/message.go`).

Shallow embedding conventions:
- A Go channel value of type `chan *RPCReply` is modelled by `Option Nat`: a
  channel identity, with `none` standing for the Go `nil` channel value.
- Receiving a pointer from a channel yields `Option RPCReply`: `none` is the
  Go `nil` pointer, which is what a receive from a closed channel produces.
- The encoder is external; its outcome is passed in as an oracle
  `enc : RPCMessage -> Option String` (`none` = success, `some e` = error `e`).
- The request-serialisation lock (`reqLock`) makes `ExecuteAsync`'s
  enqueue-and-encode a single atomic critical section, so each submission is
  modelled as one atomic state-transition function.
- The stream of tokens the dispatch loop decodes is modelled as a list of
  `InEvent` values, each carrying the outcome of the corresponding
  `Token()` / `DecodeElement()` call made by `handleInput`.
-/

namespace Netconf

/-- CapBase10 (`message.go` line 66): capability URI for the base 1.0
protocol revision. -/
def CapBase10 : String := "urn:ietf:params:netconf:base:1.0"

/-- CapBase11 (`message.go` line 67): capability URI for the base 1.1
protocol revision. -/
def CapBase11 : String := "urn:ietf:params:netconf:base:1.1"

/-- DefaultCapabilities, the default capabilities of the client library:
`[]string{CapBase10}`. -/
def DefaultCapabilities : List String := [CapBase10]

/-- Modelled from the spec: hello envelope, a list of capability URIs
(type `HelloMessage`, defined outside `message.go`). -/
structure HelloMessage where
  capabilities : List String
deriving Repr, DecidableEq

/-- Modelled from the spec: rpc-reply envelope, an opaque structural reply
payload (type `RPCReply`, defined outside `message.go`). -/
structure RPCReply where
  content : String
deriving Repr, DecidableEq

/-- Modelled from the spec: outbound rpc request envelope with a generated
unique message identifier and an opaque method payload (type `RPCMessage`). -/
structure RPCMessage where
  messageID : String
  methods : String
deriving Repr, DecidableEq

/-- Modelled from the spec: an XML name, namespace plus local part
(`xml.Name` with fields `Space` and `Local`). -/
structure XName where
  space : String
  localName : String
deriving Repr, DecidableEq

/-- Modelled from the spec: the event element inside a notification envelope,
as used by `message.go` (`result.Event.XMLName`, `result.Event.Event`). -/
structure EventElement where
  xmlName : XName
  event : String
deriving Repr, DecidableEq

/-- Modelled from the spec: decoded notification envelope with event timestamp
and event body (type `NotificationMessage`, fields as used by `message.go`:
`EventTime` and `Event`). -/
structure NotificationMessage where
  eventTime : String
  event : EventElement
deriving Repr, DecidableEq

/-- Modelled from the spec: the public Notification type delivered to
subscribers, fields as constructed in `message.go` lines 184-187. -/
structure Notification where
  xmlName : XName
  eventTime : String
  event : String
deriving Repr, DecidableEq

/-- Mutable state of `sesImpl` relevant to the claims: the channel-pool
freelist `pool`, the correlation queue `responseq`, the subscriber slot
`subchan` (`none` = nil), and a fresh-identity counter standing for
`make(chan *RPCReply)` allocating a channel distinct from all existing ones.
Queue and pool entries are Go channel values, hence `Option Nat`. -/
structure SesState where
  pool : List (Option Nat)
  responseq : List (Option Nat)
  subchan : Option Nat
  nextCh : Nat
deriving Repr, DecidableEq

/-- allocChan (`message.go` 206-217): if the pool is empty, make a fresh
channel; otherwise pop the LAST pool entry (`si.pool[:l-1], si.pool[l-1]`). -/
def allocChan (s : SesState) : SesState × Option Nat :=
  if s.pool.length = 0 then
    ({ s with nextCh := s.nextCh + 1 }, some s.nextCh)
  else
    ({ s with pool := s.pool.dropLast }, s.pool.getLast?.getD none)

/-- relChan (`message.go` 219-223): `si.pool = append(si.pool, ch)`. -/
def relChan (s : SesState) (ch : Option Nat) : SesState :=
  { s with pool := s.pool ++ [ch] }

/-- pushRespChan (`message.go` 225-230):
`si.responseq = append(si.responseq, ch)`. -/
def pushRespChan (s : SesState) (ch : Option Nat) : SesState :=
  { s with responseq := s.responseq ++ [ch] }

/-- popRespChan (`message.go` 232-239): if the queue is non-empty, remove and
return the head; otherwise return the zero value (nil channel, `none`). -/
def popRespChan (s : SesState) : SesState × Option Nat :=
  match s.responseq with
  | [] => (s, none)
  | c :: rest => ({ s with responseq := rest }, c)

/-- ExecuteAsync (`message.go` 117-125), run under `reqLock` so modelled as one
atomic step: build the RPCMessage with a generated unique id `mid` and the
caller's payload `req`, push `rchan` onto the correlation queue, then encode;
the encode outcome (from the external encoder oracle `enc`) is returned. -/
def executeAsync (s : SesState) (enc : RPCMessage → Option String)
    (req : String) (mid : String) (rchan : Option Nat) :
    SesState × Option String :=
  let msg : RPCMessage := { messageID := mid, methods := req }
  let s1 := pushRespChan s rchan
  (s1, enc msg)

/-- Execute (`message.go` 104-115): allocate a pooled channel, submit via
`executeAsync`; on submission error return `(nil, err)`; otherwise block on
the channel and return `(reply, nil)`. The value received from the channel is
the external input `recvd` (`none` when the channel was closed, since a
receive from a closed channel yields the nil pointer). The deferred
`relChan(rchan)` runs on every return path, including the error return.
Result: (final state, returned reply, returned error). -/
def execute (s : SesState) (enc : RPCMessage → Option String)
    (req : String) (mid : String) (recvd : Option RPCReply) :
    SesState × Option RPCReply × Option String :=
  let a := allocChan s
  let e := executeAsync a.1 enc req mid a.2
  match e.2 with
  | some er => (relChan e.1 a.2, none, some er)
  | none => (relChan e.1 a.2, recvd, none)

/-- Subscribe (`message.go` 127-138): like `execute`, but on submission
success it stores `nchan` in the subscriber slot before blocking on the reply
channel. The deferred `relChan` runs on both return paths. -/
def subscribe (s : SesState) (enc : RPCMessage → Option String)
    (req : String) (mid : String) (nchan : Nat) (recvd : Option RPCReply) :
    SesState × Option RPCReply × Option String :=
  let a := allocChan s
  let e := executeAsync a.1 enc req mid a.2
  match e.2 with
  | some er => (relChan e.1 a.2, none, some er)
  | none => (relChan { e.1 with subchan := some nchan } a.2, recvd, none)

/-- Capability scan in NewSession (`message.go` 82-90): `helloresp` starts as
`DefaultCapabilities`; the range loop sets it to `[CapBase11]` and
`chunkedFraming` to true at the first occurrence of `CapBase11`, then breaks.
Returns (response capabilities, chunkedFraming). -/
def helloRespLoop : List String → List String × Bool
  | [] => (DefaultCapabilities, false)
  | c :: rest =>
    if c = CapBase11 then ([CapBase11], true) else helloRespLoop rest

/-- Outcome of NewSession: a usable session (with the capabilities of the
hello response it sent and whether it switched the codec to chunked framing),
an error return, or a run-time nil-pointer dereference. -/
inductive NewSessionResult
  | ok (respCaps : List String) (chunkedFraming : Bool)
  | fail (err : String)
  | nilDeref
deriving Repr, DecidableEq

/-- NewSession (`message.go` 71-102) from the point where the handshake hello
is received. `helloRecv` is the value of `<-sess.hellochan`: `some h` when the
dispatch loop delivered the server hello, `none` when the loop terminated
first and its deferred `closeChannels` closed `hellochan`, making the receive
yield the nil pointer. The source then evaluates `sess.hello.Capabilities`
with no nil check, which on a nil pointer is a run-time dereference fault
(`nilDeref`); otherwise it computes the response capabilities, encodes the
response hello (outcome from the oracle `enc`), returning the error on encode
failure, and finally switches framing if negotiated. -/
def newSession (helloRecv : Option HelloMessage)
    (enc : HelloMessage → Option String) : NewSessionResult :=
  match helloRecv with
  | none => NewSessionResult.nilDeref
  | some hello =>
    let p := helloRespLoop hello.capabilities
    let helloresp : HelloMessage := { capabilities := p.1 }
    match enc helloresp with
    | some er => NewSessionResult.fail er
    | none => NewSessionResult.ok p.1 p.2

/-- Synthesized notification (`message.go` 184-187): wrap the decoded event in
an element named by the event's XML name, carrying its namespace and body, and
build the public `Notification` from the envelope's fields. -/
def mkNotification (m : NotificationMessage) : Notification :=
  { xmlName := m.event.xmlName
    eventTime := m.eventTime
    event := "<" ++ m.event.xmlName.localName ++ " xmlns=\"" ++
      m.event.xmlName.space ++ "\">" ++ m.event.event ++ "</" ++
      m.event.xmlName.localName ++ ">" }

/-- One decoded item seen by the dispatch loop, carrying the outcomes of the
corresponding `Token()` and `DecodeElement()` calls: a token error (EOF or
other), a start element for hello / rpc-reply (with `none` for a decode
failure), a start element for notification (whose decode error flag and
possibly partially-decoded value are both recorded, since the source discards
the error), an unexpected start element, or any non-start token. -/
inductive InEvent
  | tokenErr (eof : Bool)
  | startHello (d : Option HelloMessage)
  | startRPCReply (d : Option RPCReply)
  | startNotification (decodeErr : Bool) (d : NotificationMessage)
  | startOther (name : XName)
  | otherToken
deriving Repr, DecidableEq

/-- Observable effects of a dispatch-loop run: hellos sent to `hellochan`,
reply-delivery tasks spawned (`go func(ch, r)` — the channel may be the nil
channel `none`, on which the send blocks forever), and notifications sent to
the subscriber channel. -/
structure DispatchLog where
  hellos : List HelloMessage
  tasks : List (Option Nat × RPCReply)
  notifs : List (Nat × Notification)
deriving Repr, DecidableEq

/-- handleInput (`message.go` 147-196): iterate over the decoded stream.
Token error: break. Hello: deliver to `hellochan`, or return on decode error.
Rpc-reply: pop the correlation queue and spawn a delivery task, or return on
decode error. Notification: the decode error is discarded (`_ =`), the
(possibly zero-valued) decoded message is reshaped via `mkNotification` and
sent to the subscriber channel if one is registered, else dropped. Unexpected
elements and non-start tokens are skipped. Returns the final state and log
when the loop exits (the deferred `closeChannels` is modelled separately). -/
def handleInput (s : SesState) (log : DispatchLog) :
    List InEvent → SesState × DispatchLog
  | [] => (s, log)
  | e :: rest =>
    match e with
    | InEvent.tokenErr _ => (s, log)
    | InEvent.startHello none => (s, log)
    | InEvent.startHello (some h) =>
      handleInput s { log with hellos := log.hellos ++ [h] } rest
    | InEvent.startRPCReply none => (s, log)
    | InEvent.startRPCReply (some r) =>
      let p := popRespChan s
      handleInput p.1 { log with tasks := log.tasks ++ [(p.2, r)] } rest
    | InEvent.startNotification _ v =>
      match s.subchan with
      | some sc =>
        handleInput s { log with notifs := log.notifs ++ [(sc, mkNotification v)] } rest
      | none => handleInput s log rest
    | InEvent.startOther _ => handleInput s log rest
    | InEvent.otherToken => handleInput s log rest

/-- closeAllResponseChannels (`message.go` 241-249): repeatedly
`popRespChan`; close the popped channel while it is non-nil, stop at the
first nil result (which occurs when the queue is empty, or when the popped
head itself is the nil channel — the head is removed either way). Returns the
closed channels in pop order and the queue contents left behind. -/
def closeAllResponseChannels : List (Option Nat) → List Nat × List (Option Nat)
  | [] => ([], [])
  | none :: rest => ([], rest)
  | some c :: rest =>
    let p := closeAllResponseChannels rest
    (c :: p.1, p.2)

/-- What session teardown closed: `helloChanClosed` records `close(hellochan)`,
`closedSubchan` the subscriber channel closed (if one was registered),
`closedResp` the pending delivery channels closed by
`closeAllResponseChannels`, and `remainingq` what that drain left enqueued. -/
structure TeardownResult where
  helloChanClosed : Bool
  closedSubchan : Option Nat
  closedResp : List Nat
  remainingq : List (Option Nat)
deriving Repr, DecidableEq

/-- closeChannels (`message.go` 198-204), deferred on every exit path of
`handleInput`: close `hellochan`, close `subchan` if non-nil, then drain the
correlation queue. -/
def closeChannels (s : SesState) : TeardownResult :=
  let p := closeAllResponseChannels s.responseq
  { helloChanClosed := true
    closedSubchan := s.subchan
    closedResp := p.1
    remainingq := p.2 }

/-- Sequence of atomic submissions: each entry is (payload, message id,
delivery channel), submitted through `executeAsync` in list order. The
`reqLock` serialises concurrent submitters, so any concurrent schedule is
some such sequence. -/
def submitAll (enc : RPCMessage → Option String) :
    SesState → List (String × String × Option Nat) → SesState
  | s, [] => s
  | s, (req, mid, ch) :: rest =>
    submitAll enc (executeAsync s enc req mid ch).1 rest

/-- Deliveries that actually reach a caller: a task whose channel is the nil
channel (`none`) blocks forever and delivers to nobody. -/
def deliveredTasks (ts : List (Option Nat × RPCReply)) : List (Nat × RPCReply) :=
  ts.filterMap (fun p => p.1.map (fun c => (c, p.2)))

/-- Events that do not make `handleInput` exit: everything except a token
error and decode failures on hello / rpc-reply. -/
def nonTerminating : InEvent → Bool
  | InEvent.tokenErr _ => false
  | InEvent.startHello none => false
  | InEvent.startRPCReply none => false
  | _ => true

/-- Notification envelopes occurring in an event stream, in order
(specification-side characterisation used to state delivery claims). -/
def notifEnvelopes : List InEvent → List NotificationMessage
  | [] => []
  | InEvent.startNotification _ v :: rest => v :: notifEnvelopes rest
  | _ :: rest => notifEnvelopes rest

/-- Notifications a run delivers for the given subscriber slot: one reshaped
notification per envelope when a subscriber is registered, none otherwise
(specification-side characterisation used to state delivery claims). -/
def subNotifs (sub : Option Nat) (vs : List NotificationMessage) :
    List (Nat × Notification) :=
  match sub with
  | some sc => vs.map (fun v => (sc, mkNotification v))
  | none => []

theorem allocChan_responseq (s : SesState) :
    (allocChan s).1.responseq = s.responseq := by
  unfold allocChan; split <;> rfl

theorem allocChan_subchan (s : SesState) :
    (allocChan s).1.subchan = s.subchan := by
  unfold allocChan; split <;> rfl

theorem popRespChan_subchan (s : SesState) :
    (popRespChan s).1.subchan = s.subchan := by
  unfold popRespChan; split <;> rfl

theorem submitAll_responseq (enc : RPCMessage → Option String)
    (subs : List (String × String × Option Nat)) :
    ∀ s : SesState,
      (submitAll enc s subs).responseq
        = s.responseq ++ subs.map (fun t => t.2.2) := by
  induction subs with
  | nil => intro s; simp [submitAll]
  | cons t rest ih =>
    intro s
    obtain ⟨req, mid, ch⟩ := t
    simp [submitAll, executeAsync, pushRespChan, ih]

theorem handleInput_replies (rs : List RPCReply) :
    ∀ (s : SesState) (log : DispatchLog), rs.length = s.responseq.length →
      (handleInput s log
          (rs.map (fun r => InEvent.startRPCReply (some r)))).2.tasks
        = log.tasks ++ s.responseq.zip rs := by
  induction rs with
  | nil =>
    intro s log h
    simp [handleInput]
  | cons r rs ih =>
    intro s log h
    rcases hq : s.responseq with _ | ⟨c, q⟩
    · rw [hq] at h; simp at h
    · have h2 : rs.length = q.length := by
        rw [hq] at h; simpa using h
      have ih2 := ih { s with responseq := q }
        { log with tasks := log.tasks ++ [(c, r)] } (by simpa using h2)
      simp only [List.map_cons, handleInput, popRespChan, hq]
      rw [ih2]
      simp

theorem closeAll_drain (q : List (Option Nat))
    (h : ∀ c ∈ q, c.isSome = true) :
    (closeAllResponseChannels q).1.map some = q ∧
    (closeAllResponseChannels q).2 = [] := by
  induction q with
  | nil => simp [closeAllResponseChannels]
  | cons c rest ih =>
    cases c with
    | none =>
      have := h none (List.mem_cons_self _ _)
      simp at this
    | some a =>
      have hr := ih (fun c hc => h c (List.mem_cons_of_mem _ hc))
      simp [closeAllResponseChannels, hr.1, hr.2]

theorem helloRespLoop_eq (caps : List String) :
    helloRespLoop caps
      = if CapBase11 ∈ caps then ([CapBase11], true)
        else ([CapBase10], false) := by
  induction caps with
  | nil => simp [helloRespLoop, DefaultCapabilities]
  | cons c rest ih =>
    by_cases hc : c = CapBase11
    · subst hc; simp [helloRespLoop]
    · have hne : ¬ (CapBase11 = c) := fun h => hc h.symm
      simp [helloRespLoop, hc, ih, List.mem_cons, hne]

theorem handleInput_notifs (events : List InEvent) :
    ∀ (s : SesState) (log : DispatchLog),
      (∀ e ∈ events, nonTerminating e = true) →
      (handleInput s log events).2.notifs
        = log.notifs ++ subNotifs s.subchan (notifEnvelopes events) := by
  induction events with
  | nil =>
    intro s log _
    cases hsc : s.subchan <;> simp [handleInput, notifEnvelopes, subNotifs, hsc]
  | cons e rest ih =>
    intro s log h
    have hrest : ∀ x ∈ rest, nonTerminating x = true :=
      fun x hx => h x (List.mem_cons_of_mem _ hx)
    have he := h e (List.mem_cons_self _ _)
    cases e with
    | tokenErr b => simp [nonTerminating] at he
    | startHello d =>
      cases d with
      | none => simp [nonTerminating] at he
      | some hm =>
        simp only [handleInput, notifEnvelopes]
        rw [ih _ _ hrest]
    | startRPCReply d =>
      cases d with
      | none => simp [nonTerminating] at he
      | some r =>
        simp only [handleInput, notifEnvelopes]
        rw [ih _ _ hrest, popRespChan_subchan]
    | startNotification b v =>
      cases hsc : s.subchan with
      | none =>
        simp only [handleInput, notifEnvelopes, hsc]
        rw [ih _ _ hrest, hsc]
        simp [subNotifs]
      | some sc =>
        simp only [handleInput, notifEnvelopes, hsc]
        rw [ih _ _ hrest, hsc]
        simp [subNotifs]
    | startOther name =>
      simp only [handleInput, notifEnvelopes]
      rw [ih _ _ hrest]
    | otherToken =>
      simp only [handleInput, notifEnvelopes]
      rw [ih _ _ hrest]

/-- Claim C1: for every sequence of submissions (each an atomic
enqueue-and-encode under the request lock), if the replies arrive in the same
order the requests were written, the dispatch loop pairs the i-th submitted
delivery channel with the i-th reply: correlation is purely positional FIFO,
and the result does not depend on the payloads or generated message ids. -/
theorem c1_fifo_positional_correlation (s : SesState)
    (enc : RPCMessage → Option String)
    (subs : List (String × String × Option Nat)) (replies : List RPCReply)
    (log : DispatchLog) (h0 : s.responseq = [])
    (hlen : replies.length = subs.length) :
    (handleInput (submitAll enc s subs) log
        (replies.map (fun r => InEvent.startRPCReply (some r)))).2.tasks
      = log.tasks ++ (subs.map (fun t => t.2.2)).zip replies := by
  have hq := submitAll_responseq enc subs s
  rw [h0] at hq
  simp only [List.nil_append] at hq
  have hlen2 : replies.length = (submitAll enc s subs).responseq.length := by
    rw [hq, List.length_map, hlen]
  rw [handleInput_replies replies _ _ hlen2, hq]

theorem c1_fifo_positional_correlation_witness :
    (handleInput (submitAll (fun _ => none) ⟨[], [], none, 0⟩
        [("ra", "m1", some 1), ("rb", "m2", some 2)]) ⟨[], [], []⟩
        ([RPCReply.mk "x", RPCReply.mk "y"].map
          (fun r => InEvent.startRPCReply (some r)))).2.tasks
      = ([("ra", "m1", some 1), ("rb", "m2", some 2)].map
          (fun t => t.2.2)).zip [RPCReply.mk "x", RPCReply.mk "y"] :=
  c1_fifo_positional_correlation ⟨[], [], none, 0⟩ (fun _ => none)
    [("ra", "m1", some 1), ("rb", "m2", some 2)]
    [RPCReply.mk "x", RPCReply.mk "y"] ⟨[], [], []⟩ rfl rfl

/-- Claim C2 counterexample: when the delivery channel is closed by session
shutdown before a reply arrives, the receive in Execute yields the nil
pointer, and Execute returns that zero-valued reply together with a nil
error — not the explicit session-closed error the claim asserts. -/
theorem c2_session_closed_counterexample :
    (execute ⟨[], [], none, 0⟩ (fun _ => none) "req" "mid" none).2.1 = none ∧
    (execute ⟨[], [], none, 0⟩ (fun _ => none) "req" "mid" none).2.2 = none :=
  ⟨rfl, rfl⟩

/-- Claim C2 amended: for every call to Execute whose delivery channel is
closed by session shutdown before a reply is delivered (modelled by the
receive yielding the nil pointer), Execute returns a zero-valued (nil) reply
with a nil error; the shutdown is observable only through that nil reply. -/
theorem c2_session_closed_amended (s : SesState) (req mid : String) :
    (execute s (fun _ => none) req mid none).2.1 = none ∧
    (execute s (fun _ => none) req mid none).2.2 = none := by
  constructor <;> simp [execute, executeAsync]

/-- Claim C3 counterexample: starting from a fresh session, an Execute whose
encode step fails releases its freshly allocated channel (identity 0) back to
the pool via the deferred relChan while that channel is still pending on the
correlation queue, and the very next allocChan hands out that same channel
again — before the caller consumed a reply and before any force-close. -/
theorem c3_channel_pool_reuse_counterexample :
    (execute ⟨[], [], none, 0⟩ (fun _ => some "encode failed") "req" "mid"
        none).1.pool = [some 0] ∧
    (execute ⟨[], [], none, 0⟩ (fun _ => some "encode failed") "req" "mid"
        none).1.responseq = [some 0] ∧
    (allocChan (execute ⟨[], [], none, 0⟩ (fun _ => some "encode failed")
        "req" "mid" none).1).2 = some 0 :=
  ⟨rfl, rfl, rfl⟩

/-- Claim C3 amended: a submission itself (ExecuteAsync) never returns the
delivery channel to the pool — the pool is unchanged by it — and on Execute's
success path the deferred release happens only after the blocking receive;
but on the path where ExecuteAsync returns an encode error, Execute releases
the allocated channel back to the pool while it is still enqueued on the
correlation queue, so allocChan can hand it out again before the pending slot
is force-closed at teardown. -/
theorem c3_channel_pool_release_amended (s : SesState)
    (enc : RPCMessage → Option String) (req mid : String) (ch : Option Nat)
    (recvd : Option RPCReply) (er : String) :
    (executeAsync s enc req mid ch).1.pool = s.pool ∧
    (allocChan s).2 ∈ (execute s (fun _ => some er) req mid recvd).1.pool ∧
    (allocChan s).2 ∈ (execute s (fun _ => some er) req mid recvd).1.responseq := by
  refine ⟨by simp [executeAsync, pushRespChan], ?_, ?_⟩ <;>
    simp [execute, executeAsync, pushRespChan, relChan]

/-- Claim C4 (code behaviour at the failing input): when the transport
closes before the server hello is delivered, the dispatch loop exits and its
deferred closeChannels closes the handshake channel, so the receive in
NewSession yields the nil pointer; NewSession then dereferences it at
`sess.hello.Capabilities` and faults at run time instead of returning an
error, whatever the encoder would have done. -/
theorem c4_nil_hello_dereference (enc : HelloMessage → Option String) :
    newSession none enc = NewSessionResult.nilDeref := rfl

/-- Claim C5: teardown of the dispatch loop, from any exit state whose
pending correlation entries are all real (non-nil) channels, closes the
handshake-delivery channel, closes the subscriber channel exactly when one is
registered, and drains the correlation queue closing every still-pending
delivery channel, leaving nothing enqueued. -/
theorem c5_teardown_closes_all (s : SesState)
    (h : ∀ c ∈ s.responseq, c.isSome = true) :
    (closeChannels s).helloChanClosed = true ∧
    (closeChannels s).closedSubchan = s.subchan ∧
    (closeChannels s).closedResp.map some = s.responseq ∧
    (closeChannels s).remainingq = [] := by
  have hd := closeAll_drain s.responseq h
  exact ⟨rfl, rfl, hd.1, hd.2⟩

theorem c5_teardown_closes_all_witness :
    (closeChannels ⟨[], [some 3, some 5], some 9, 6⟩).helloChanClosed = true ∧
    (closeChannels ⟨[], [some 3, some 5], some 9, 6⟩).closedSubchan
      = (⟨[], [some 3, some 5], some 9, 6⟩ : SesState).subchan ∧
    (closeChannels ⟨[], [some 3, some 5], some 9, 6⟩).closedResp.map some
      = [some 3, some 5] ∧
    (closeChannels ⟨[], [some 3, some 5], some 9, 6⟩).remainingq = [] :=
  c5_teardown_closes_all ⟨[], [some 3, some 5], some 9, 6⟩ (by decide)

/-- Claim C6: if the server hello advertises the base:1.1 capability, the
session replies with exactly the singleton base:1.1 capability list and
switches the framing codec to chunked mode; otherwise it replies with the
default capability set — which is exactly the base:1.0 singleton — and the
framing mode is left unchanged. -/
theorem c6_capability_negotiation (caps : List String) :
    (CapBase11 ∈ caps →
      newSession (some ⟨caps⟩) (fun _ => none)
        = NewSessionResult.ok [CapBase11] true) ∧
    (CapBase11 ∉ caps →
      newSession (some ⟨caps⟩) (fun _ => none)
        = NewSessionResult.ok DefaultCapabilities false) ∧
    DefaultCapabilities = [CapBase10] := by
  refine ⟨fun h => ?_, fun h => ?_, rfl⟩ <;>
    simp [newSession, helloRespLoop_eq, h, DefaultCapabilities]

theorem c6_capability_negotiation_witness :
    newSession (some ⟨[CapBase10, CapBase11]⟩) (fun _ => none)
      = NewSessionResult.ok [CapBase11] true ∧
    newSession (some ⟨[CapBase10]⟩) (fun _ => none)
      = NewSessionResult.ok DefaultCapabilities false :=
  ⟨(c6_capability_negotiation [CapBase10, CapBase11]).1 (by decide),
   (c6_capability_negotiation [CapBase10]).2.1 (by decide)⟩

/-- Claim C7: when the encode step of a submission fails, the error is
returned synchronously — by ExecuteAsync itself, and as the error result of
Execute and Subscribe — while the delivery channel enqueued before the encode
is left pending on the correlation queue (appended, never removed), and the
teardown drain closes exactly that still-pending channel. -/
theorem c7_submission_failure_leaves_slot (s : SesState) (req mid : String)
    (ch : Nat) (er : String) (nchan : Nat) (recvd : Option RPCReply)
    (h : ∀ c ∈ s.responseq, c.isSome = true) :
    (executeAsync s (fun _ => some er) req mid (some ch)).2 = some er ∧
    (executeAsync s (fun _ => some er) req mid (some ch)).1.responseq
      = s.responseq ++ [some ch] ∧
    (execute s (fun _ => some er) req mid recvd).2 = (none, some er) ∧
    (execute s (fun _ => some er) req mid recvd).1.responseq
      = s.responseq ++ [(allocChan s).2] ∧
    (subscribe s (fun _ => some er) req mid nchan recvd).2 = (none, some er) ∧
    ch ∈ (closeAllResponseChannels
        (executeAsync s (fun _ => some er) req mid (some ch)).1.responseq).1 := by
  have hall : ∀ c ∈ s.responseq ++ [some ch], c.isSome = true := by
    intro c hc
    rcases List.mem_append.1 hc with h1 | h1
    · exact h c h1
    · rw [List.mem_singleton.1 h1]; rfl
  have hd := closeAll_drain (s.responseq ++ [some ch]) hall
  have hmem : ch ∈ (closeAllResponseChannels (s.responseq ++ [some ch])).1 := by
    have : some ch ∈ (closeAllResponseChannels (s.responseq ++ [some ch])).1.map some := by
      rw [hd.1]
      exact List.mem_append_right _ (List.mem_singleton.2 rfl)
    simpa using this
  refine ⟨rfl, by simp [executeAsync, pushRespChan], ?_, ?_, ?_, ?_⟩
  · simp [execute, executeAsync]
  · simp [execute, executeAsync, pushRespChan, relChan, allocChan_responseq]
  · simp [subscribe, executeAsync]
  · simpa [executeAsync, pushRespChan] using hmem

theorem c7_submission_failure_leaves_slot_witness :
    (executeAsync ⟨[], [some 4], none, 0⟩ (fun _ => some "boom") "req" "mid"
        (some 7)).2 = some "boom" ∧
    (executeAsync ⟨[], [some 4], none, 0⟩ (fun _ => some "boom") "req" "mid"
        (some 7)).1.responseq = [some 4] ++ [some 7] ∧
    (execute ⟨[], [some 4], none, 0⟩ (fun _ => some "boom") "req" "mid"
        none).2 = (none, some "boom") ∧
    (execute ⟨[], [some 4], none, 0⟩ (fun _ => some "boom") "req" "mid"
        none).1.responseq
      = [some 4] ++ [(allocChan ⟨[], [some 4], none, 0⟩).2] ∧
    (subscribe ⟨[], [some 4], none, 0⟩ (fun _ => some "boom") "req" "mid" 11
        none).2 = (none, some "boom") ∧
    7 ∈ (closeAllResponseChannels
        (executeAsync ⟨[], [some 4], none, 0⟩ (fun _ => some "boom") "req"
          "mid" (some 7)).1.responseq).1 :=
  c7_submission_failure_leaves_slot ⟨[], [some 4], none, 0⟩ "req" "mid" 7
    "boom" 11 none (by decide)

/-- Claim C8: over any stretch of the input stream that does not terminate
the dispatch loop, every decoded notification envelope is reshaped by
mkNotification — keeping the envelope's event name, namespace and timestamp
and wrapping its body in a synthesized element — and delivered to the
registered subscriber channel, in order; when no subscriber is registered
(subchan is nil) nothing at all is delivered. -/
theorem c8_notification_delivery (s : SesState) (log : DispatchLog)
    (events : List InEvent) (h : ∀ e ∈ events, nonTerminating e = true) :
    (handleInput s log events).2.notifs
      = log.notifs ++ subNotifs s.subchan (notifEnvelopes events) ∧
    ∀ v : NotificationMessage,
      (mkNotification v).xmlName = v.event.xmlName ∧
      (mkNotification v).eventTime = v.eventTime :=
  ⟨handleInput_notifs events s log h, fun _ => ⟨rfl, rfl⟩⟩

theorem c8_notification_delivery_witness :
    (handleInput ⟨[], [], some 7, 0⟩ ⟨[], [], []⟩
        [InEvent.startNotification false
          ⟨"2024-01-01", ⟨⟨"ns", "ev"⟩, "body"⟩⟩,
         InEvent.startOther ⟨"x", "y"⟩]).2.notifs
      = [] ++ subNotifs (some 7)
          (notifEnvelopes
            [InEvent.startNotification false
              ⟨"2024-01-01", ⟨⟨"ns", "ev"⟩, "body"⟩⟩,
             InEvent.startOther ⟨"x", "y"⟩]) ∧
    ∀ v : NotificationMessage,
      (mkNotification v).xmlName = v.event.xmlName ∧
      (mkNotification v).eventTime = v.eventTime :=
  c8_notification_delivery ⟨[], [], some 7, 0⟩ ⟨[], [], []⟩
    [InEvent.startNotification false ⟨"2024-01-01", ⟨⟨"ns", "ev"⟩, "body"⟩⟩,
     InEvent.startOther ⟨"x", "y"⟩] (by decide)

/-- Claim C9: when an rpc-reply is decoded while the correlation queue is
empty, popRespChan returns the nil channel, the dispatch loop spawns a
delivery task targeting that nil channel and then continues with the rest of
the stream unchanged, and a nil-channel task delivers the reply to no caller
(a send on a nil channel blocks forever). -/
theorem c9_empty_queue_reply (s : SesState) (log : DispatchLog) (r : RPCReply)
    (rest : List InEvent) (h : s.responseq = []) :
    (popRespChan s).2 = none ∧
    handleInput s log (InEvent.startRPCReply (some r) :: rest)
      = handleInput s { log with tasks := log.tasks ++ [(none, r)] } rest ∧
    deliveredTasks (log.tasks ++ [(none, r)]) = deliveredTasks log.tasks := by
  have hp : popRespChan s = (s, none) := by
    unfold popRespChan; rw [h]
  refine ⟨by rw [hp], ?_, ?_⟩
  · simp only [handleInput, hp]
  · simp [deliveredTasks]

theorem c9_empty_queue_reply_witness :
    (popRespChan ⟨[], [], none, 0⟩).2 = none ∧
    handleInput ⟨[], [], none, 0⟩ ⟨[], [], []⟩
        [InEvent.startRPCReply (some (RPCReply.mk "z"))]
      = handleInput ⟨[], [], none, 0⟩
          ⟨[], [] ++ [(none, RPCReply.mk "z")], []⟩ [] ∧
    deliveredTasks ([] ++ [(none, RPCReply.mk "z")]) = deliveredTasks [] :=
  c9_empty_queue_reply ⟨[], [], none, 0⟩ ⟨[], [], []⟩ (RPCReply.mk "z") [] rfl

/-- Claim C10: a decode error on a notification envelope is discarded — the
dispatch loop behaves identically whether or not the decode failed, still
reshaping the (possibly zero-valued) decoded message, delivering it to the
subscriber when one is registered, and continuing with the rest of the
stream — whereas a decode error on a hello or rpc-reply envelope makes the
loop return immediately. -/
theorem c10_notification_decode_error_ignored (s : SesState)
    (log : DispatchLog) (v : NotificationMessage) (rest : List InEvent) :
    handleInput s log (InEvent.startNotification true v :: rest)
      = handleInput s log (InEvent.startNotification false v :: rest) ∧
    handleInput s log (InEvent.startNotification true v :: rest)
      = (match s.subchan with
         | some sc =>
           handleInput s
             { log with notifs := log.notifs ++ [(sc, mkNotification v)] } rest
         | none => handleInput s log rest) ∧
    handleInput s log (InEvent.startHello none :: rest) = (s, log) ∧
    handleInput s log (InEvent.startRPCReply none :: rest) = (s, log) := by
  refine ⟨rfl, ?_, rfl, rfl⟩
  cases hsc : s.subchan <;> simp [handleInput, hsc]

end Netconf
